import Mathlib

/-!
Verification development for the incremental narrative-stream parser and
per-panel asset orchestrator of the manga story-generation backend.

Text is modelled as `List Char`.  Python regular-expression searches are
modelled by hand-written matchers that reproduce, for exactly the patterns
occurring in the source, Python `re` semantics (leftmost search, greedy and
lazy quantifier behaviour including the backtracking cases reachable for
these patterns, `re.IGNORECASE` as ASCII case folding, `re.DOTALL` where the
pattern's classes make it relevant).  Outcomes of external services (LLM,
image synthesis, speech synthesis, storage, the random number generator and
the progress sink) are oracle parameters, so the orchestration logic stays
a pure function of its inputs.
-/

/-! ## Character and string machinery -/

/-- ASCII lower-casing, as applied by Python `str.lower` / `re.IGNORECASE`
on the ASCII texts handled here. -/
def lowerChar (c : Char) : Char :=
  if 'A' ≤ c ∧ c ≤ 'Z' then Char.ofNat (c.toNat + 32) else c

/-- Python `\s` on ASCII text: space, tab, newline, carriage return,
vertical tab, form feed. -/
def isWS (c : Char) : Bool :=
  c = ' ' || c = '\t' || c = '\n' || c = '\r' || c = '\x0b' || c = '\x0c'

/-- ASCII digit test (Python `\d` on ASCII text). -/
def isDigitChar (c : Char) : Bool :=
  '0' ≤ c && c ≤ '9'

/-- Character comparison, case-insensitively when `ci` is set
(models compiling a pattern with `re.IGNORECASE`). -/
def charEq (ci : Bool) (a b : Char) : Bool :=
  if ci then lowerChar a = lowerChar b else a = b

/-- Lower-case a whole string (Python `str.lower()`). -/
def toLowerList (s : List Char) : List Char :=
  s.map lowerChar

/-- Match the literal `lit` at the head of `s` (case-insensitively when `ci`),
returning the rest of `s` on success. -/
def dropLit (ci : Bool) : List Char → List Char → Option (List Char)
  | [], s => some s
  | _ :: _, [] => none
  | l :: ls, c :: cs => if charEq ci l c then dropLit ci ls cs else none

/-- Python `str.strip()`: remove leading and trailing whitespace. -/
def stripWS (s : List Char) : List Char :=
  ((s.dropWhile isWS).reverse.dropWhile isWS).reverse

/-- Python `str.rstrip('.')`: remove all trailing dots. -/
def rstripDots (s : List Char) : List Char :=
  (s.reverse.dropWhile (fun c => c = '.')).reverse

/-- Python substring test `pat in hay`. -/
def containsSub (hay pat : List Char) : Bool :=
  decide (pat <:+: hay)

/-- Decimal digits of a number read back as a `Nat` (Python `int(...)` on a
digit string). -/
def digitsToNat (ds : List Char) : Nat :=
  ds.foldl (fun acc c => acc * 10 + (c.toNat - ('0').toNat)) 0

/-! ## Retry/Backoff Executor (src/utils/retry_helpers.py)

`exponential_backoff_async` is modelled as a pure function.  The wrapped
operation is an oracle `op : Nat → Except (List Char) α` giving, per attempt
index, either the raised exception's message or the success value.
`random.random()` is an oracle `rand : Nat → ℚ` (per attempt), and the
caller-supplied `retryable_exceptions` isinstance test is an oracle
`retryableMatches : List Char → Bool` on the error.  The result carries the
list of sleep durations that `asyncio.sleep` received, in order. -/

/-- The rate-limit indicator keywords of `exponential_backoff_async`. -/
def rateLimitKeywords : List (List Char) :=
  [("rate limit").data, ("quota").data, ("too many requests").data,
   ("429").data, ("throttled").data, ("resource_exhausted").data,
   ("quota_exceeded").data, ("rate_limited").data]

/-- Python `any(keyword in error_str for keyword in [...])` with
`error_str = str(e).lower()`. -/
def isRateLimitErr (e : List Char) : Bool :=
  rateLimitKeywords.any (fun kw => containsSub (toLowerList e) kw)

/-- Python `'quota exceeded' in error_str.lower()` (the extra `.lower()` on
the already lower-cased string is idempotent). -/
def isQuotaExceededErr (e : List Char) : Bool :=
  containsSub (toLowerList e) (("quota exceeded").data)

/-- The delay computation of `exponential_backoff_async` for one retry:
quota-exceeded errors double both the exponential term and the cap, and the
jitter scales by `0.5 + random.random() * 0.5`. -/
def backoffDelay (initial_delay max_delay exponential_base : ℚ)
    (isQuota : Bool) (jitter : Bool) (u : ℚ) (attempt : Nat) : ℚ :=
  let base_delay :=
    if isQuota then
      min (initial_delay * exponential_base ^ attempt * 2) (max_delay * 2)
    else
      min (initial_delay * exponential_base ^ attempt) max_delay
  if jitter then base_delay * (1 / 2 + u * (1 / 2)) else base_delay

/-- The retry loop of `exponential_backoff_async`.  `fuel` is the number of
loop iterations still permitted (`max_retries + 1` at the start); the
`fuel = 0` case corresponds to the dead code after the `for` loop. -/
def backoffGo {α : Type} (op : Nat → Except (List Char) α)
    (max_retries : Nat) (initial_delay max_delay exponential_base : ℚ)
    (jitter : Bool) (retryableMatches : List Char → Bool) (rand : Nat → ℚ) :
    Nat → Nat → List ℚ → Except (List Char) α × List ℚ
  | 0, _, sleeps =>
    (Except.error (("Unknown error in exponential backoff").data), sleeps)
  | fuel + 1, attempt, sleeps =>
    match op attempt with
    | Except.ok v => (Except.ok v, sleeps)
    | Except.error e =>
      let is_retryable := retryableMatches e
      let is_rate_limit := isRateLimitErr e
      let is_quota := isQuotaExceededErr e
      if !is_retryable && !is_rate_limit then (Except.error e, sleeps)
      else if max_retries ≤ attempt then (Except.error e, sleeps)
      else
        backoffGo op max_retries initial_delay max_delay exponential_base
          jitter retryableMatches rand fuel (attempt + 1)
          (sleeps ++ [backoffDelay initial_delay max_delay exponential_base
            is_quota jitter (rand attempt) attempt])

/-- `exponential_backoff_async(func, ..., max_retries, initial_delay,
max_delay, exponential_base, jitter, retryable_exceptions)`: runs the retry
loop and returns the final outcome together with the sleeps performed. -/
def exponential_backoff_async {α : Type} (op : Nat → Except (List Char) α)
    (max_retries : Nat) (initial_delay max_delay exponential_base : ℚ)
    (jitter : Bool) (retryableMatches : List Char → Bool) (rand : Nat → ℚ) :
    Except (List Char) α × List ℚ :=
  backoffGo op max_retries initial_delay max_delay exponential_base jitter
    retryableMatches rand (max_retries + 1) 0 []

/-- The default `retryable_exceptions = (Exception,)`: every exception
instance matches. -/
def retryAll : List Char → Bool := fun _ => true

/-! ## Regex matchers

Hand-written models of the exact patterns in the source.  `searchAt` models
`re.search`'s leftmost-position scan; `findAll` models `re.findall`'s
non-overlapping left-to-right scan (each of the modelled patterns consumes
at least one character, so the fuel `length + 1` never runs out). -/

/-- Try `matchAt` at each suffix, leftmost first (`re.search`). -/
def searchAt {α : Type} (matchAt : List Char → Option α) : List Char → Option α
  | [] => matchAt []
  | s@(_ :: rest) =>
    match matchAt s with
    | some g => some g
    | none => searchAt matchAt rest

def findAllAux {α : Type} (matchAt : List Char → Option (α × List Char)) :
    Nat → List Char → List α
  | 0, _ => []
  | fuel + 1, s =>
    match matchAt s with
    | some (a, after) => a :: findAllAux matchAt fuel after
    | none =>
      match s with
      | [] => []
      | _ :: rest => findAllAux matchAt fuel rest

/-- `re.findall`: scan left to right, continuing after each match's end. -/
def findAll {α : Type} (matchAt : List Char → Option (α × List Char))
    (s : List Char) : List α :=
  findAllAux matchAt (s.length + 1) s

/-- Model of `"([^"]*)"` at the current position: an opening quote, the
greedy quote-free capture, and the required closing quote.  Returns the
capture and the text after the match. -/
def quotedTail (s : List Char) : Option (List Char × List Char) :=
  match s with
  | '\"' :: rest =>
    let grp := rest.takeWhile (fun c => c ≠ '\"')
    match rest.dropWhile (fun c => c ≠ '\"') with
    | '\"' :: after => some (grp, after)
    | _ => none
  | _ => none

/-- Model of `CLS*([^\n]+)` at the current position for a class `CLS` that
contains the newline: greedy class run, then the capture to the end of the
line; when the run reaches the end of the text the engine backtracks and the
capture is the run's rightmost non-newline character. -/
def classTailNoNL (cls : Char → Bool) (s : List Char) : Option (List Char × List Char) :=
  match s.dropWhile cls with
  | [] =>
    let run := s.takeWhile cls
    let nls := run.reverse.takeWhile (fun c => c = '\n')
    match run.reverse.drop nls.length with
    | c :: _ => some ([c], nls)
    | [] => none
  | c :: cs =>
    some (c :: cs.takeWhile (fun x => x ≠ '\n'), cs.dropWhile (fun x => x ≠ '\n'))

def colonOrWS (c : Char) : Bool := c = ':' || isWS c

def underscoreOrWS (c : Char) : Bool := c = '_' || isWS c

def isQuoteChar (c : Char) : Bool := c = '\"' || c = '\x27'

/-- The class `[^"'\n]` of strategy 3's capture. -/
def s3GroupChar (c : Char) : Bool := !(isQuoteChar c || c = '\n')

/-- The trailing optional `["\']?`. -/
def consumeOptQuote : List Char → List Char
  | c :: cs => if isQuoteChar c then cs else c :: cs
  | [] => []

/-- The literal `PANEL_{n}:` of the per-panel patterns. -/
def panelLabel (n : Nat) : List Char :=
  ("PANEL_").data ++ (toString n).data ++ [':']

def dlgKeyLit : List Char := ("dialogue_text:").data

def dlgWordLit : List Char := ("dialogue_text").data

/-! ### The four `_extract_panel_data` search patterns (streaming_parser.py),
all compiled with `re.DOTALL | re.IGNORECASE`. -/

/-- `PANEL_{n}:\s*dialogue_text:\s*"([^"]*)"` at one position. -/
def matchPanelQuotedAt (n : Nat) (s : List Char) : Option (List Char) :=
  (dropLit true (panelLabel n) s).bind fun s1 =>
  (dropLit true dlgKeyLit (s1.dropWhile isWS)).bind fun s2 =>
  (quotedTail (s2.dropWhile isWS)).map Prod.fst

/-- `PANEL_{n}:\s*dialogue_text:\s*([^\n]+)` at one position. -/
def matchPanelUnquotedAt (n : Nat) (s : List Char) : Option (List Char) :=
  (dropLit true (panelLabel n) s).bind fun s1 =>
  (dropLit true dlgKeyLit (s1.dropWhile isWS)).bind fun s2 =>
  (classTailNoNL isWS s2).map Prod.fst

/-- Suffixes of `s` reachable by the greedy `[^:]*` (their dropped prefix is
colon-free), leftmost first. -/
def suffixesUpToColon : List Char → List (List Char)
  | [] => [[]]
  | c :: cs => (c :: cs) :: (if c = ':' then [] else suffixesUpToColon cs)

/-- `PANEL_{n}:[^:]*dialogue_text` followed by `tail`, at one position; the
greedy `[^:]*` tries the rightmost occurrence of the literal first. -/
def matchPanelFlexAt (tail : List Char → Option (List Char × List Char))
    (n : Nat) (s : List Char) : Option (List Char) :=
  (dropLit true (panelLabel n) s).bind fun s1 =>
  (suffixesUpToColon s1).reverse.findSome? fun suf =>
    (dropLit true dlgWordLit suf).bind fun s2 => (tail s2).map Prod.fst

/-- The ordered pattern list of `_extract_panel_data`, as `re.search`es over
the whole accumulated text. -/
def panelDialoguePatterns (n : Nat) : List (List Char → Option (List Char)) :=
  [searchAt (matchPanelQuotedAt n),
   searchAt (matchPanelUnquotedAt n),
   searchAt (matchPanelFlexAt (fun s => quotedTail (s.dropWhile colonOrWS)) n),
   searchAt (matchPanelFlexAt (classTailNoNL colonOrWS) n)]

/-- The pattern loop of `_extract_panel_data`: each match overwrites
`dialogue_text` with its stripped capture, and the loop breaks as soon as a
stripped capture exceeds 10 characters. -/
def pickDialogueGo (text : List Char) :
    List (List Char → Option (List Char)) → Option (List Char) → Option (List Char)
  | [], last => last
  | p :: ps, last =>
    match p text with
    | some g =>
      let d := stripWS g
      if d.length > 10 then some d else pickDialogueGo text ps (some d)
    | none => pickDialogueGo text ps last

/-- The final `dialogue_text` value of `_extract_panel_data`'s pattern loop. -/
def pickDialogue (text : List Char) (n : Nat) : Option (List Char) :=
  pickDialogueGo text (panelDialoguePatterns n) none

/-! ### The four `extract_all_panels_robust` strategies
(dialogue_extractor.py).  Strategies 1, 2, 4 are case-sensitive and
strategy 3 has `re.IGNORECASE`; all capture the panel number. -/

/-- Strategy 1, `PANEL_(\d+):\s*dialogue_text:\s*"([^"]*)"`, at one
position; yields `((panelNumber, capture), textAfterMatch)`. -/
def matchS1At (s : List Char) : Option ((Nat × List Char) × List Char) :=
  (dropLit false (("PANEL_").data) s).bind fun s1 =>
  let ds := s1.takeWhile isDigitChar
  if ds.isEmpty then none else
  match s1.dropWhile isDigitChar with
  | ':' :: s2 =>
    (dropLit false dlgKeyLit (s2.dropWhile isWS)).bind fun s3 =>
    (quotedTail (s3.dropWhile isWS)).map fun pr => ((digitsToNat ds, pr.1), pr.2)
  | _ => none

/-- Strategy 2, `PANEL_(\d+):\s*dialogue_text:\s*([^\n]+)`, at one position. -/
def matchS2At (s : List Char) : Option ((Nat × List Char) × List Char) :=
  (dropLit false (("PANEL_").data) s).bind fun s1 =>
  let ds := s1.takeWhile isDigitChar
  if ds.isEmpty then none else
  match s1.dropWhile isDigitChar with
  | ':' :: s2 =>
    (dropLit false dlgKeyLit (s2.dropWhile isWS)).bind fun s3 =>
    (classTailNoNL isWS s3).map fun pr => ((digitsToNat ds, pr.1), pr.2)
  | _ => none

/-- The `[:\s]*["\']?([^"\'\n]+)["\']?` tail of strategy 3, including the
backtracking into the `[:\s]*` run that the engine performs when the
position after the greedy run cannot start the capture. -/
def s3QuoteGroup (s : List Char) : Option (List Char × List Char) :=
  let run := s.takeWhile colonOrWS
  let rest := s.dropWhile colonOrWS
  let direct : Option (List Char × List Char) :=
    match rest with
    | [] => none
    | c :: cs =>
      if isQuoteChar c then
        match cs with
        | [] => none
        | c2 :: _ =>
          if isQuoteChar c2 || c2 = '\n' then none
          else
            some (cs.takeWhile s3GroupChar, consumeOptQuote (cs.dropWhile s3GroupChar))
      else if c = '\n' then none
      else
        some ((c :: cs).takeWhile s3GroupChar, consumeOptQuote ((c :: cs).dropWhile s3GroupChar))
  match direct with
  | some r => some r
  | none =>
    let nls := run.reverse.takeWhile (fun c => c = '\n')
    match run.reverse.drop nls.length with
    | c :: _ => some ([c], consumeOptQuote (nls ++ rest))
    | [] => none

/-- The `dialogue[_\s]*text[:\s]*["\']?([^"\'\n]+)["\']?` tail of
strategy 3 at one position. -/
def s3TailAt (s : List Char) : Option (List Char × List Char) :=
  (dropLit true (("dialogue").data) s).bind fun s1 =>
  (dropLit true (("text").data) (s1.dropWhile underscoreOrWS)).bind fun s2 =>
  s3QuoteGroup s2

/-- Strategy 3, `PANEL\s*(\d+)[:\s]*.*?dialogue[_\s]*text[:\s]*["\']?([^"\'\n]+)["\']?`
(`re.DOTALL | re.IGNORECASE`), at one position.  The lazy dot-all star makes
the tail match at its earliest possible position; the tail's leading literal
cannot begin inside the `[:\s]*` run, so that is the earliest position
overall. -/
def matchS3At (s : List Char) : Option ((Nat × List Char) × List Char) :=
  (dropLit true (("PANEL").data) s).bind fun s1 =>
  let s2 := s1.dropWhile isWS
  let ds := s2.takeWhile isDigitChar
  if ds.isEmpty then none else
  (searchAt s3TailAt (s2.dropWhile isDigitChar)).map fun pr =>
    ((digitsToNat ds, pr.1), pr.2)

def s4Class (c : Char) : Bool := c = '.' || c = ':' || isWS c

/-- Backtracking of strategy 4's `[\.:\s]+` run: with `k + 1` class
characters consumed, the capture `([^0-9\n][^\n]{20,})` starts right after
them; on failure one more character is given back, stopping at one consumed
(`+` needs at least one). -/
def s4Try (ds run rest : List Char) : Nat → Option ((List Char × List Char) × List Char)
  | 0 => none
  | k + 1 =>
    match run.drop (k + 1) ++ rest with
    | [] => s4Try ds run rest k
    | c :: cs =>
      if isDigitChar c || c = '\n' then s4Try ds run rest k
      else
        let tl := cs.takeWhile (fun x => x ≠ '\n')
        if 20 ≤ tl.length then some ((ds, c :: tl), cs.drop tl.length)
        else s4Try ds run rest k

/-- Strategy 4, `(\d+)[\.:\s]+([^0-9\n][^\n]{20,})`, at one position. -/
def matchS4At (s : List Char) : Option ((List Char × List Char) × List Char) :=
  let ds := s.takeWhile isDigitChar
  if ds.isEmpty then none else
  let s1 := s.dropWhile isDigitChar
  let run := s1.takeWhile s4Class
  if run.isEmpty then none else
  s4Try ds run (s1.dropWhile s4Class) run.length

/-! ## Dialogue Extractor (src/services/dialogue_extractor.py)

`extract_all_panels_robust` builds a Python dict keyed by panel number;
dicts are modelled as insertion-ordered association lists with unique keys. -/

/-- Python `d[k] = v` on an insertion-ordered dict. -/
def dictInsert (d : List (Nat × List Char)) (k : Nat) (v : List Char) :
    List (Nat × List Char) :=
  if (d.lookup k).isSome then d.map (fun p => if p.1 = k then (k, v) else p)
  else d ++ [(k, v)]

/-- Python `k in d`. -/
def dictMem (d : List (Nat × List Char)) (k : Nat) : Bool :=
  (d.lookup k).isSome

/-- Strategy 1's consumer loop: unconditional insert of every stripped
capture that is non-empty and longer than 10 characters. -/
def strategy1Step (ms : List (Nat × List Char)) (panels : List (Nat × List Char)) :
    List (Nat × List Char) :=
  ms.foldl
    (fun d m =>
      let t := stripWS m.2
      if !t.isEmpty && t.length > 10 then dictInsert d m.1 t else d)
    panels

/-- One iteration of the consumer loop shared by strategies 2 and 3:
insert only for panel numbers not already present. -/
def strategyGuardedInsert (d : List (Nat × List Char)) (m : Nat × List Char) :
    List (Nat × List Char) :=
  if !(dictMem d m.1) && !(stripWS m.2).isEmpty && (stripWS m.2).length > 10 then
    dictInsert d m.1 (stripWS m.2)
  else d

/-- The consumer loop shared by strategies 2 and 3. -/
def strategyGuardedStep (ms : List (Nat × List Char)) (panels : List (Nat × List Char)) :
    List (Nat × List Char) :=
  ms.foldl strategyGuardedInsert panels

/-- One iteration of strategy 4's consumer loop: matches are assigned to a
running panel counter (the captured number is ignored), only for counters
not already present, with the capture stripped and right-stripped of dots
and required to exceed 15 characters. -/
def strategy4Fold (st : List (Nat × List Char) × Nat) (m : List Char × List Char) :
    List (Nat × List Char) × Nat :=
  if st.2 ≤ 6 && !(dictMem st.1 st.2) then
    if (rstripDots (stripWS m.2)).length > 15 then
      (dictInsert st.1 st.2 (rstripDots (stripWS m.2)), st.2 + 1)
    else st
  else st

/-- Strategy 4's consumer loop. -/
def strategy4Step (ms : List (List Char × List Char))
    (panels : List (Nat × List Char)) : List (Nat × List Char) :=
  (ms.foldl strategy4Fold (panels, 1)).1

/-- `extract_all_panels_robust`: the four strategies in order, each of the
later ones tried only while fewer than 6 panels were found. -/
def extract_all_panels_robust (text : List Char) : List (Nat × List Char) :=
  let p1 := strategy1Step (findAll matchS1At text) []
  let p2 := if p1.length < 6 then strategyGuardedStep (findAll matchS2At text) p1 else p1
  let p3 := if p2.length < 6 then strategyGuardedStep (findAll matchS3At text) p2 else p2
  if p3.length < 6 then strategy4Step (findAll matchS4At text) p3 else p3

/-- The dictionary after strategy 1 (the let-bound `panels` value of
`extract_all_panels_robust` before the strategy-2 block). -/
def robustStage1 (text : List Char) : List (Nat × List Char) :=
  strategy1Step (findAll matchS1At text) []

/-- The dictionary after the strategy-2 block. -/
def robustStage2 (text : List Char) : List (Nat × List Char) :=
  if (robustStage1 text).length < 6 then
    strategyGuardedStep (findAll matchS2At text) (robustStage1 text)
  else robustStage1 text

/-- The dictionary after the strategy-3 block. -/
def robustStage3 (text : List Char) : List (Nat × List Char) :=
  if (robustStage2 text).length < 6 then
    strategyGuardedStep (findAll matchS3At text) (robustStage2 text)
  else robustStage2 text

/-- The fields of `StoryInputs` that `validate_and_enhance_dialogue` reads. -/
structure EnhanceInputs where
  nickname : List Char
  dream : List Char
  mood : List Char

/-- The `fallback_dialogues` templates of `validate_and_enhance_dialogue`
(defined for keys 1 to 6, like the source dict). -/
def fallbackDialogue (inputs : EnhanceInputs) : Nat → List Char
  | 1 =>
    ("Meet ").data ++ inputs.nickname ++ (". They\x27re feeling ").data ++
      inputs.mood ++
      (" today, but deep inside burns a desire to achieve ").data ++
      inputs.dream ++
      (". Every great journey begins with a single step forward.").data
  | 2 =>
    inputs.nickname ++ (" faces the challenge ahead. The path to ").data ++
      inputs.dream ++
      (" isn\x27t easy, but they\x27ve come too far to give up now. Sometimes the hardest battles are the ones we fight within ourselves.").data
  | 3 =>
    ("Taking a moment to breathe, ").data ++ inputs.nickname ++
      (" reflects on how far they\x27ve already come. Even when feeling ").data ++
      inputs.mood ++
      (", there\x27s strength in acknowledging both struggles and progress.").data
  | 4 =>
    ("In this moment of clarity, ").data ++ inputs.nickname ++
      (" discovers something important. Their ").data ++ inputs.dream ++
      (" isn\x27t just about the destination - it\x27s about becoming the person they\x27re meant to be along the way.").data
  | 5 =>
    ("With newfound determination, ").data ++ inputs.nickname ++
      (" takes action. They realize that being ").data ++ inputs.mood ++
      (" doesn\x27t define them - it\x27s just one part of their story, and they have the power to write the next chapter.").data
  | 6 =>
    ("Looking back on the journey, ").data ++ inputs.nickname ++
      (" sees how much they\x27ve grown. The road to ").data ++ inputs.dream ++
      (" continues, but now they know they have the strength to face whatever comes next. Hope lights the way forward.").data
  | _ => []

/-- One entry of `validate_and_enhance_dialogue`: keep the extracted
dialogue when present and longer than 20 characters, otherwise substitute
the template fallback. -/
def enhancedDialogueFor (panels : List (Nat × List Char)) (inputs : EnhanceInputs)
    (panel_num : Nat) : List Char :=
  match panels.lookup panel_num with
  | some d => if d.length > 20 then d else fallbackDialogue inputs panel_num
  | none => fallbackDialogue inputs panel_num

/-- `validate_and_enhance_dialogue`: the enhanced dictionary over panel
indices 1..6. -/
def validate_and_enhance_dialogue (panels : List (Nat × List Char))
    (inputs : EnhanceInputs) : List (Nat × List Char) :=
  (List.range' 1 6).map fun panel_num =>
    (panel_num, enhancedDialogueFor panels inputs panel_num)

/-! ## Stream Parser (src/services/streaming_parser.py)

`StreamingPanelParser`'s mutable state is an explicit `ParserState` record
passed and returned by each operation.  Global sheets are stored as the raw
matched JSON text (the parsed dict's content is never consumed by the logic
under verification); `json.loads` acceptance is modelled by `jsonLoadsOk`, a
recogniser for flat non-empty JSON objects whose values are strings, natural
numbers or arrays of those — the only shapes the `{...}`-lazy regex group can
deliver intact (a nested object truncates the group at the inner brace and
`json.loads` then fails; for the same reason acceptance of the empty object
is immaterial here and `jsonLoadsOk` rejects it). -/

/-- JSON string literal (escape-free, as in the texts handled here);
returns the rest. -/
def parseJsonString : List Char → Option (List Char)
  | '\"' :: rest =>
    match rest.dropWhile (fun c => c ≠ '\"') with
    | '\"' :: after => some after
    | _ => none
  | _ => none

/-- JSON natural-number literal; returns the rest. -/
def parseJsonNumber (s : List Char) : Option (List Char) :=
  if (s.takeWhile isDigitChar).isEmpty then none else some (s.dropWhile isDigitChar)

/-- JSON scalar: string or number. -/
def parseJsonScalar (s : List Char) : Option (List Char) :=
  match parseJsonString s with
  | some r => some r
  | none => parseJsonNumber s

/-- Items of a JSON array of scalars, after the first item was parsed. -/
def parseJsonArrayRest : Nat → List Char → Option (List Char)
  | 0, _ => none
  | fuel + 1, s =>
    match s.dropWhile isWS with
    | ']' :: after => some after
    | ',' :: t =>
      (parseJsonScalar (t.dropWhile isWS)).bind (parseJsonArrayRest fuel)
    | _ => none

/-- JSON value: scalar or array of scalars. -/
def parseJsonValue (s : List Char) : Option (List Char) :=
  match parseJsonScalar s with
  | some r => some r
  | none =>
    match s with
    | '[' :: t =>
      match t.dropWhile isWS with
      | ']' :: after => some after
      | t2 => (parseJsonScalar t2).bind (parseJsonArrayRest t.length)
    | _ => none

/-- Members of a JSON object, from the first key; returns the rest after the
closing brace. -/
def parseJsonMembers : Nat → List Char → Option (List Char)
  | 0, _ => none
  | fuel + 1, s =>
    (parseJsonString s).bind fun s1 =>
    match s1.dropWhile isWS with
    | ':' :: s2 =>
      (parseJsonValue (s2.dropWhile isWS)).bind fun s3 =>
      match s3.dropWhile isWS with
      | '\x7d' :: after => some after
      | ',' :: s4 => parseJsonMembers fuel (s4.dropWhile isWS)
      | _ => none
    | _ => none

/-- Whether `json.loads` accepts the matched group (see section comment). -/
def jsonLoadsOk (g : List Char) : Bool :=
  match g with
  | '\x7b' :: rest =>
    match parseJsonMembers g.length (rest.dropWhile isWS) with
    | some after => after.isEmpty
    | none => false
  | _ => false

/-- One global-section pattern `LABEL:\s*({.*?})` at one position: the lazy
dot-all group runs to the first closing brace. -/
def matchBraceAt (label : List Char) (s : List Char) : Option (List Char) :=
  (dropLit false label s).bind fun s1 =>
  match s1.dropWhile isWS with
  | '\x7b' :: rest =>
    match rest.dropWhile (fun c => c ≠ '\x7d') with
    | '\x7d' :: _ => some ('\x7b' :: (rest.takeWhile (fun c => c ≠ '\x7d') ++ ['\x7d']))
    | _ => none
  | _ => none

/-- One field of `_extract_global_sections`: extract only while still unset,
and keep `None` when the regex group fails to parse as JSON ("wait for more
complete data"). -/
def extractGlobalField (label : List Char) (cur : Option (List Char))
    (text : List Char) : Option (List Char) :=
  match cur with
  | some v => some v
  | none =>
    match searchAt (matchBraceAt label) text with
    | some g => if jsonLoadsOk g then some g else none
    | none => none

/-- A parsed panel dictionary as produced by the stream parser. -/
structure PanelData where
  panel_number : Nat
  character_sheet : List Char
  prop_sheet : List Char
  style_guide : List Char
  dialogue_text : List Char
  emotional_tone : List Char
  image_prompt : List Char
  music_prompt : List Char
  tts_text : List Char
deriving DecidableEq

/-- `StreamingPanelParser`'s instance state.  `partial_panel_data` is omitted:
the source only ever stores the empty dict in it. -/
structure ParserState where
  accumulated_text : List Char
  current_panel : Nat
  max_panels : Nat
  completed_panels : List PanelData
  character_sheet : Option (List Char)
  prop_sheet : Option (List Char)
  style_guide : Option (List Char)
deriving DecidableEq

/-- `__init__` / `reset()`. -/
def parserReset : ParserState :=
  { accumulated_text := []
    current_panel := 1
    max_panels := 6
    completed_panels := []
    character_sheet := none
    prop_sheet := none
    style_guide := none }

/-- `_extract_global_sections` (its unused `updated` flag is dropped). -/
def extract_global_sections (st : ParserState) (text : List Char) : ParserState :=
  { st with
    character_sheet := extractGlobalField (("CHARACTER_SHEET:").data) st.character_sheet text
    prop_sheet := extractGlobalField (("PROP_SHEET:").data) st.prop_sheet text
    style_guide := extractGlobalField (("STYLE_GUIDE:").data) st.style_guide text }

/-- The minimal global data `_extract_panel_data` substitutes when a panel is
found before all sheets are available (stored as the Python literal's text;
the content is never consumed downstream). -/
def placeholderStreamCharacter : List Char :=
  ("\x7b\x27name\x27: \x27Hero\x27, \x27age\x27: \x27young\x27, \x27appearance\x27: \x27determined character\x27\x7d").data

def placeholderStreamProp : List Char :=
  ("\x7b\x27items\x27: [\x27hope\x27], \x27environment\x27: \x27inspiring setting\x27\x7d").data

def placeholderStreamStyle : List Char :=
  ("\x7b\x27art_style\x27: \x27shonen manga\x27, \x27visual_elements\x27: [\x27emotional\x27]\x7d").data

/-- `_determine_emotional_tone` (the dialogue argument is unused in the
source and dropped here). -/
def determine_emotional_tone (panel_number : Nat) : List Char :=
  match panel_number with
  | 1 => ("neutral").data
  | 2 => ("tense").data
  | 3 => ("contemplative").data
  | 4 => ("hopeful").data
  | 5 => ("determined").data
  | 6 => ("uplifting").data
  | _ => ("neutral").data

/-- The `not all([...])` placeholder fill of `_extract_panel_data` for
missing global data. -/
def fillGlobalPlaceholders (st : ParserState) : ParserState :=
  if st.character_sheet.isSome && st.prop_sheet.isSome && st.style_guide.isSome then st
  else
    { st with
      character_sheet := some (st.character_sheet.getD placeholderStreamCharacter)
      prop_sheet := some (st.prop_sheet.getD placeholderStreamProp)
      style_guide := some (st.style_guide.getD placeholderStreamStyle) }

/-- `_extract_panel_data`: the pattern loop's final `dialogue_text`, the
truthiness gate, the placeholder fill for missing global data, and the built
panel dictionary. -/
def extract_panel_data (st : ParserState) (text : List Char) (panel_number : Nat) :
    ParserState × Option PanelData :=
  match pickDialogue text panel_number with
  | some d =>
    if d.isEmpty then (st, none)
    else
      let st' := fillGlobalPlaceholders st
      (st',
        some
          { panel_number := panel_number
            character_sheet := st'.character_sheet.getD []
            prop_sheet := st'.prop_sheet.getD []
            style_guide := st'.style_guide.getD []
            dialogue_text := d
            emotional_tone := determine_emotional_tone panel_number
            image_prompt := []
            music_prompt := []
            tts_text := d })
  | none => (st, none)

/-- `process_token`: accumulate, extract globals, extract the currently
expected panel; on success record it, advance, and clear the buffer
(`_reset_for_next_panel`). -/
def process_token (st : ParserState) (token : List Char) :
    ParserState × Option PanelData :=
  let acc := st.accumulated_text ++ token
  let st2 := extract_global_sections { st with accumulated_text := acc } acc
  match extract_panel_data st2 acc st.current_panel with
  | (st3, some pd) =>
    ({ st3 with
        completed_panels := st3.completed_panels ++ [pd]
        current_panel := st3.current_panel + 1
        accumulated_text := [] },
      some pd)
  | (st3, none) => (st3, none)

/-- The template fallback of `_extract_remaining_panels_robust`. -/
def robustFallbackText (panel_num : Nat) : List Char :=
  ("Panel ").data ++ (toString panel_num).data ++
    (": The journey continues with determination and hope.").data

/-- The minimal global data of `_extract_remaining_panels_robust`. -/
def placeholderRobustCharacter : List Char :=
  ("\x7b\x27name\x27: \x27Hero\x27, \x27age\x27: \x27young\x27\x7d").data

def placeholderRobustProp : List Char :=
  ("\x7b\x27items\x27: [\x27hope\x27], \x27environment\x27: \x27inspiring\x27\x7d").data

def placeholderRobustStyle : List Char :=
  ("\x7b\x27art_style\x27: \x27shonen manga\x27\x7d").data

/-- `_extract_remaining_panels_robust`: run the robust extractor over the full
text and append a panel dictionary for every index beyond the completed
count, falling back to the template text. -/
def extract_remaining_panels_robust (st : ParserState) (full_text : List Char) :
    ParserState :=
  let extracted := extract_all_panels_robust full_text
  (List.range' 1 st.max_panels).foldl
    (fun s panel_num =>
      if s.completed_panels.length < panel_num then
        let dialogue_text := (extracted.lookup panel_num).getD (robustFallbackText panel_num)
        let allGlobals :=
          s.character_sheet.isSome && s.prop_sheet.isSome && s.style_guide.isSome
        let s' :=
          if allGlobals then s
          else
            { s with
              character_sheet := some (s.character_sheet.getD placeholderRobustCharacter)
              prop_sheet := some (s.prop_sheet.getD placeholderRobustProp)
              style_guide := some (s.style_guide.getD placeholderRobustStyle) }
        { s' with
          completed_panels := s'.completed_panels ++
            [{ panel_number := panel_num
               character_sheet := s'.character_sheet.getD []
               prop_sheet := s'.prop_sheet.getD []
               style_guide := s'.style_guide.getD []
               dialogue_text := dialogue_text
               emotional_tone := determine_emotional_tone panel_num
               image_prompt := []
               music_prompt := []
               tts_text := dialogue_text }] }
      else s)
    st

/-- The end of `process_streaming_response`: the post-stream recovery pass,
followed by the yield loop over `completed_panels[len(completed_panels):]` —
the empty slice, so no additional panel is yielded. -/
def processStreamFinish (st : ParserState) (yields : List PanelData)
    (accFull : List Char) : List PanelData × ParserState :=
  let st' :=
    if !accFull.isEmpty && st.completed_panels.length < st.max_panels then
      extract_remaining_panels_robust st accFull
    else st
  (yields, st')

/-- The token loop of `process_streaming_response`: process each chunk,
yield any completed panel, and break once `current_panel` exceeds
`max_panels`. -/
def processStreamGo (st : ParserState) (yields : List PanelData)
    (accFull : List Char) : List (List Char) → List PanelData × ParserState
  | [] => processStreamFinish st yields accFull
  | token :: rest =>
    let accFull' := accFull ++ token
    match process_token st token with
    | (st', some pd) =>
      if st'.max_panels < st'.current_panel then
        processStreamFinish st' (yields ++ [pd]) accFull'
      else processStreamGo st' (yields ++ [pd]) accFull' rest
    | (st', none) =>
      if st'.max_panels < st'.current_panel then processStreamFinish st' yields accFull'
      else processStreamGo st' yields accFull' rest

/-- `process_streaming_response`: reset, consume the stream, recover, and
return the yielded panels together with the final parser state. -/
def process_streaming_response (tokens : List (List Char)) :
    List PanelData × ParserState :=
  processStreamGo parserReset [] [] tokens

/-! ## Panel Asset Orchestrator (src/services/panel_processor.py)

`process_panel` is modelled with the outcomes of its two concurrent asset
branches as oracles: `primary` is the result of the image branch's
generate-and-upload call (`image_service.generate_single_panel`),
`fallbackAttempt` the result of the simplified-prompt generation attempt
inside `image_service.generate_fallback_image`, and `ttsOutcome` the result
of the TTS branch.  Storage uploads are modelled as succeeding; their URLs
are determined by the blob name (a GCS v4 signed URL is opaque — only
identity and non-emptiness are observed by the claims). -/

/-- The static background music reference of `process_panel`. -/
def staticMusicUrl : List Char := ("/src/assets/audio/background-music.mp3").data

/-- Python `f"{n:02d}"` for the panel numbers in blob names. -/
def zeroPad2 (n : Nat) : List Char :=
  if n < 10 then '0' :: (toString n).data else (toString n).data

/-- `storage_service.upload_image`'s blob name
`stories/{story_id}/panel_{panel_number:02d}.png`. -/
def imageBlobName (storyId : List Char) (n : Nat) : List Char :=
  ("stories/").data ++ storyId ++ ("/panel_").data ++ zeroPad2 n ++ (".png").data

/-- `storage_service.upload_image`: uploads the bytes and returns the signed
URL for the blob (the bytes do not influence the URL). -/
def upload_image (_data : List Nat) (storyId : List Char) (n : Nat) : List Char :=
  ("https://storage.googleapis.com/signed/").data ++ imageBlobName storyId n

/-- `image_service._create_placeholder_image`: locally synthesizes a PNG and
never raises (its own exception handler returns fixed minimal PNG bytes).
The byte content is not observed by any claim; modelled as the PNG
signature. -/
def create_placeholder_image (_panel_number : Nat) : List Nat :=
  [137, 80, 78, 71, 13, 10, 26, 10]

/-- `image_service.generate_fallback_image`: try the simplified prompt, and
on any failure return the locally synthesized placeholder; never raises. -/
def generate_fallback_image (fallbackAttempt : Except (List Char) (List Nat))
    (panel_number : Nat) : List Nat :=
  match fallbackAttempt with
  | Except.ok b => b
  | Except.error _ => create_placeholder_image panel_number

/-- `PanelProcessor._generate_panel_image`: on a quota/429-flagged primary
failure, generate the fallback image (which cannot fail) and upload it;
any other failure re-raises into the caller's gather. -/
def generate_panel_image (primary : Except (List Char) (List Char))
    (fallbackAttempt : Except (List Char) (List Nat))
    (storyId : List Char) (panel_number : Nat) : Except (List Char) (List Char) :=
  match primary with
  | Except.ok url => Except.ok url
  | Except.error e =>
    let es := toLowerList e
    if containsSub es (("quota exceeded").data) || containsSub es (("429").data) then
      Except.ok
        (upload_image (generate_fallback_image fallbackAttempt panel_number)
          storyId panel_number)
    else Except.error e

/-- A panel together with its asset URL slots. -/
structure AssetPanel where
  base : PanelData
  image_url : List Char
  music_url : List Char
  tts_url : List Char
deriving DecidableEq

/-- The gather's per-branch result conversion: an exception becomes the
empty URL. -/
def urlOf : Except (List Char) (List Char) → List Char
  | Except.ok u => u
  | Except.error _ => []

/-- `PanelProcessor.process_panel`.  `emitFails` models an exception raised
inside the outer `try` (e.g. the caller's progress sink failing after the
asset gather): the handler then returns the panel with all three asset URLs
overwritten by empty strings. -/
def process_panel (pd : PanelData) (storyId : List Char)
    (primary : Except (List Char) (List Char))
    (fallbackAttempt : Except (List Char) (List Nat))
    (ttsOutcome : Except (List Char) (List Char))
    (emitFails : Bool) : AssetPanel :=
  if emitFails then { base := pd, image_url := [], music_url := [], tts_url := [] }
  else
    { base := pd
      image_url := urlOf (generate_panel_image primary fallbackAttempt storyId pd.panel_number)
      music_url := staticMusicUrl
      tts_url := urlOf ttsOutcome }

/-! ## Sequential Story Orchestrator (src/services/sequential_story_service.py) -/

/-- `SequentialStoryService._get_fallback_dialogue`. -/
def get_fallback_dialogue : Nat → List Char
  | 1 => ("Every journey begins with a single step. Today feels uncertain, but there\x27s something stirring inside, a quiet determination waiting to emerge.").data
  | 2 => ("The path ahead seems challenging, filled with obstacles that feel overwhelming. Yet deep down, there\x27s a voice whispering that this struggle has meaning.").data
  | 3 => ("Taking a moment to breathe and reflect on how far the journey has already come. Even in uncertainty, there are small victories worth acknowledging.").data
  | 4 => ("A spark of clarity emerges. This challenge isn\x27t just about reaching the destination, it\x27s about discovering the strength that was always there.").data
  | 5 => ("With newfound understanding comes the courage to take action. Each step forward is a choice to believe in the possibility of growth and change.").data
  | 6 => ("Looking back on this journey, it\x27s clear how much has changed. The path continues ahead, but now it\x27s illuminated by hope and self-belief.").data
  | _ => ("The journey continues with hope and determination.").data

/-- The fields of a processed panel consumed by the sequential service's
manifest assembly. -/
structure SeqPanel where
  panel_number : Nat
  dialogue_text : List Char
  emotional_tone : List Char
  image_url : List Char
  music_url : List Char
  tts_url : List Char
deriving DecidableEq

/-- `SequentialStoryService._create_fallback_panel`. -/
def create_fallback_panel (panel_number : Nat) : SeqPanel :=
  { panel_number := panel_number
    image_url := []
    tts_url := []
    music_url := staticMusicUrl
    dialogue_text := get_fallback_dialogue panel_number
    emotional_tone := ("neutral").data }

/-- The schedule events of `generate_sequential_story` relevant to the
ordering claims. -/
inductive SeqEvent where
  | panel1Start : SeqEvent
  | panel1Done : SeqEvent
  | slideshowStart : SeqEvent
  | dispatch : Nat → Nat → SeqEvent
deriving DecidableEq

/-- The manifest assembly and scheduling skeleton of
`generate_sequential_story`: panel 1 is awaited through `process_panel` and
the slideshow-start event emitted before any of the remaining tasks is
created; task `i` (0-based, processing panel `i + 2`) starts after a
staggered delay of `i * 2` seconds (`delay = (i - 1) * 2` with the source's
1-based enumeration).  The fully processed panel 1 and the joined outcomes
of panels 2..6 (`asyncio.gather` with `return_exceptions=True`) are oracle
inputs; an exception outcome is replaced by `_create_fallback_panel`. -/
def generate_sequential_story (panel1 : SeqPanel)
    (results : List (Except (List Char) SeqPanel)) :
    List SeqPanel × List SeqEvent :=
  let manifest := panel1 ::
    results.enum.map (fun pr =>
      match pr.2 with
      | Except.ok p => p
      | Except.error _ => create_fallback_panel (pr.1 + 2))
  let trace :=
    [SeqEvent.panel1Start, SeqEvent.panel1Done, SeqEvent.slideshowStart] ++
      results.enum.map (fun pr => SeqEvent.dispatch (pr.1 + 2) (pr.1 * 2))
  (manifest, trace)

/-! ## Concrete inputs used by counterexamples and witnesses -/

/-- One chunk carrying the three well-formed global sections and all six
well-formed panel blocks of the documented structured-block syntax. -/
def demoToken : List Char :=
  ("CHARACTER_SHEET: \x7b\"name\": \"Kai\"\x7d\nPROP_SHEET: \x7b\"items\": [\"hope\"]\x7d\nSTYLE_GUIDE: \x7b\"art_style\": \"manga\"\x7d\nPANEL_1: dialogue_text: \"Kai starts the journey today.\"\nPANEL_2: dialogue_text: \"A steep challenge rises ahead.\"\nPANEL_3: dialogue_text: \"Kai pauses to reflect quietly.\"\nPANEL_4: dialogue_text: \"A discovery changes everything.\"\nPANEL_5: dialogue_text: \"Hope carries Kai through doubt.\"\nPANEL_6: dialogue_text: \"The story ends with bright hope.\"").data

/-- The single-chunk stream delivering `demoToken`. -/
def demoStream : List (List Char) := [demoToken]

/-- A panel block whose quoted dialogue is 2 characters long. -/
def demoShortPanelText : List Char :=
  ("PANEL_1: dialogue_text: \"Hi\"").data

/-- The §8 example profile. -/
def mayaInputs : EnhanceInputs :=
  { nickname := ("Maya").data
    dream := ("overcome shyness").data
    mood := ("stressed").data }

/-- A text on which strategy 1 of the robust extractor finds panel 1. -/
def s1DemoText : List Char :=
  ("PANEL_1: dialogue_text: \"a dozen chars!\"").data

/-- A text on which strategy 2 of the robust extractor (not strategy 1,
whose pattern requires quotes) binds panel 2. -/
def s2DemoText : List Char :=
  ("PANEL_2: dialogue_text: an unquoted long line").data

/-- A processed panel used as a concrete gather outcome. -/
def demoSeqPanel (n : Nat) : SeqPanel :=
  { panel_number := n
    dialogue_text := ("ok").data
    emotional_tone := ("neutral").data
    image_url := ("img").data
    music_url := staticMusicUrl
    tts_url := ("tts").data }

/-- Gather outcomes for panels 2..6 in which panel 3's pipeline raised. -/
def demoSeqResults : List (Except (List Char) SeqPanel) :=
  [Except.ok (demoSeqPanel 2), Except.error (("boom").data),
   Except.ok (demoSeqPanel 4), Except.ok (demoSeqPanel 5),
   Except.ok (demoSeqPanel 6)]

/-- An operation that fails twice with a quota-flagged error and then
succeeds. -/
def demoQuotaOp : Nat → Except (List Char) Nat :=
  fun n => if n < 2 then Except.error (("quota exceeded").data) else Except.ok 42

/-- A parsed panel used as concrete `process_panel` input. -/
def demoPanelData : PanelData :=
  { panel_number := 3
    character_sheet := placeholderStreamCharacter
    prop_sheet := placeholderStreamProp
    style_guide := placeholderStreamStyle
    dialogue_text := ("Kai pauses to reflect quietly.").data
    emotional_tone := ("contemplative").data
    image_prompt := []
    music_prompt := []
    tts_text := ("Kai pauses to reflect quietly.").data }


set_option maxRecDepth 40000

/-! ## Theorems -/

/-! ### Structural lemmas about the stream parser -/

/-- The placeholder fill touches only the three sheet fields. -/
theorem fillGlobalPlaceholders_proj (st : ParserState) :
    (fillGlobalPlaceholders st).current_panel = st.current_panel ∧
    (fillGlobalPlaceholders st).max_panels = st.max_panels := by
  unfold fillGlobalPlaceholders
  split <;> exact ⟨rfl, rfl⟩

/-- `_extract_panel_data` never touches the panel counter or the panel cap. -/
theorem extract_panel_data_fst (st : ParserState) (text : List Char) (n : Nat) :
    (extract_panel_data st text n).1.current_panel = st.current_panel ∧
    (extract_panel_data st text n).1.max_panels = st.max_panels := by
  unfold extract_panel_data
  split
  · split
    · exact ⟨rfl, rfl⟩
    · exact fillGlobalPlaceholders_proj st
  · exact ⟨rfl, rfl⟩

/-- A panel dictionary returned by `_extract_panel_data` carries the
requested panel number and a non-empty dialogue. -/
theorem extract_panel_data_some (st : ParserState) (text : List Char) (n : Nat)
    (pd : PanelData) (h : (extract_panel_data st text n).2 = some pd) :
    pd.panel_number = n ∧ pd.dialogue_text ≠ [] := by
  unfold extract_panel_data at h
  revert h
  split
  · split
    · intro h; exact absurd h (by simp)
    · intro h
      simp only [Option.some.injEq] at h
      subst h
      refine ⟨rfl, ?_⟩
      simp only [ne_eq]
      intro hnil
      simp_all
  · intro h; exact absurd h (by simp)

/-- Case analysis of one `process_token` call: either no panel is returned
and the counter is unchanged, or the returned panel carries the expected
number and a non-empty dialogue and the counter advances by one; the cap is
never touched. -/
theorem process_token_cases (st : ParserState) (t : List Char) :
    ((process_token st t).2 = none ∧
      (process_token st t).1.current_panel = st.current_panel ∧
      (process_token st t).1.max_panels = st.max_panels) ∨
    (∃ pd, (process_token st t).2 = some pd ∧
      pd.panel_number = st.current_panel ∧ pd.dialogue_text ≠ [] ∧
      (process_token st t).1.current_panel = st.current_panel + 1 ∧
      (process_token st t).1.max_panels = st.max_panels) := by
  unfold process_token
  dsimp only
  split
  next st3 pd heq =>
    right
    have hfst := extract_panel_data_fst
      (extract_global_sections { st with accumulated_text := st.accumulated_text ++ t }
        (st.accumulated_text ++ t))
      (st.accumulated_text ++ t) st.current_panel
    have hpd := extract_panel_data_some
      (extract_global_sections { st with accumulated_text := st.accumulated_text ++ t }
        (st.accumulated_text ++ t))
      (st.accumulated_text ++ t) st.current_panel pd (by rw [heq])
    rw [heq] at hfst
    exact ⟨pd, rfl, hpd.1, hpd.2, by simp only [Nat.add_right_cancel_iff]; exact hfst.1, by exact hfst.2⟩
  next st3 heq =>
    left
    have hfst := extract_panel_data_fst
      (extract_global_sections { st with accumulated_text := st.accumulated_text ++ t }
        (st.accumulated_text ++ t))
      (st.accumulated_text ++ t) st.current_panel
    rw [heq] at hfst
    exact ⟨rfl, hfst.1, hfst.2⟩

/-- `process_streaming_response`'s yield loop never yields after the stream
ends: the recovery pass only mutates the state. -/
theorem processStreamFinish_yields (st : ParserState) (ys : List PanelData)
    (acc : List Char) : (processStreamFinish st ys acc).1 = ys := rfl

/-- Invariant of the token loop: the yielded panel numbers stay the
consecutive range from 1, at most 6 panels are yielded, and every yielded
dialogue is non-empty. -/
theorem processStreamGo_spec (tokens : List (List Char)) :
    ∀ (st : ParserState) (ys : List PanelData) (acc : List Char),
      st.max_panels = 6 →
      st.current_panel = ys.length + 1 →
      ys.map (fun p => p.panel_number) = List.range' 1 ys.length →
      (∀ r ∈ ys, r.dialogue_text ≠ []) →
      ys.length ≤ 5 →
      ((processStreamGo st ys acc tokens).1.map (fun p => p.panel_number) =
          List.range' 1 (processStreamGo st ys acc tokens).1.length) ∧
        (processStreamGo st ys acc tokens).1.length ≤ 6 ∧
        ∀ r ∈ (processStreamGo st ys acc tokens).1, r.dialogue_text ≠ [] := by
  induction tokens with
  | nil =>
    intro st ys acc _ _ hmap hne hlen
    simp only [processStreamGo, processStreamFinish_yields]
    exact ⟨hmap, by omega, hne⟩
  | cons t rest ih =>
    intro st ys acc hmax hcur hmap hne hlen
    have hc := process_token_cases st t
    rcases hpt : process_token st t with ⟨st', o⟩
    rw [hpt] at hc
    dsimp only at hc
    simp only [processStreamGo, hpt]
    rcases hc with ⟨ho, hcur', hmax'⟩ | ⟨pd, ho, hpn, hdlg, hcur', hmax'⟩
    · subst ho
      dsimp only
      rw [if_neg (by rw [hcur', hmax', hmax]; omega)]
      exact ih st' ys (acc ++ t) (hmax' ▸ hmax) (by omega) hmap hne hlen
    · subst ho
      dsimp only
      have hmap' : (ys ++ [pd]).map (fun p => p.panel_number) =
          List.range' 1 (ys ++ [pd]).length := by
        rw [List.map_append, hmap]
        simp only [List.map_cons, List.map_nil, List.length_append, List.length_cons,
          List.length_nil]
        rw [show ys.length + (0 + 1) = ys.length + 1 by omega, List.range'_concat]
        simp [hpn, hcur, Nat.add_comm]
      have hne' : ∀ r ∈ ys ++ [pd], r.dialogue_text ≠ [] := by
        intro r hr
        rcases List.mem_append.mp hr with h | h
        · exact hne r h
        · simp only [List.mem_singleton] at h; subst h; exact hdlg
      by_cases hbreak : st'.max_panels < st'.current_panel
      · rw [if_pos hbreak]
        rw [processStreamFinish_yields]
        refine ⟨hmap', ?_, hne'⟩
        simp only [List.length_append, List.length_cons, List.length_nil]
        omega
      · rw [if_neg hbreak]
        refine ih st' (ys ++ [pd]) (acc ++ t) (hmax' ▸ hmax) ?_ hmap' hne' ?_
        · simp only [List.length_append, List.length_cons, List.length_nil]
          omega
        · rw [hcur', hmax', hmax] at hbreak
          simp only [List.length_append, List.length_cons, List.length_nil]
          omega

/-! ### C1 -/

/-- C1 (amended): for every token stream, `process_streaming_response`
yields at most 6 panel records, their `panel_number`s are exactly the
consecutive range 1, 2, …, k in yield order, and every yielded record's
`dialogue_text` is non-empty. -/
theorem c1_stream_yields_consecutive (tokens : List (List Char)) :
    (process_streaming_response tokens).1.map (fun p => p.panel_number) =
      List.range' 1 (process_streaming_response tokens).1.length ∧
    (process_streaming_response tokens).1.length ≤ 6 ∧
    ∀ r ∈ (process_streaming_response tokens).1, r.dialogue_text ≠ [] := by
  unfold process_streaming_response
  exact processStreamGo_spec tokens parserReset [] [] rfl rfl rfl (by simp) (by simp)

/-- C1 (counterexample): a stream consisting of one chunk that carries all
three well-formed global sections and all six well-formed panel blocks
yields exactly one panel record, not six: the parser extracts panel 1 from
the chunk, clears its buffer (discarding panels 2–6), and the post-stream
recovery pass does not reach the caller. -/
theorem c1_counterexample :
    (process_streaming_response demoStream).1.length = 1 ∧
    ¬ (process_streaming_response demoStream).1.length = 6 := by decide

/-! ### C2 -/

/-- C2 (code bug): on the same stream, after the stream ends the robust
recovery pass does append panels up to the full count of 6 to
`completed_panels`, but the caller still receives only the single
incrementally recognized panel: the source's final yield loop iterates over
`completed_panels[len(completed_panels):]`, an empty slice, contradicting
its own `# Yield any additional panels found` intent. -/
theorem c2_recovered_panels_not_yielded :
    (process_streaming_response demoStream).2.completed_panels.length = 6 ∧
    (process_streaming_response demoStream).1.length = 1 := by decide

/-! ### C3 -/

/-- C3 (amended): `process_token` returns a panel record only when the
pattern loop's final retained text is non-empty; the 10-character threshold
governs only the early selection among the patterns, so the emitted
dialogue may be at or below it. -/
theorem c3_panel_requires_nonempty_dialogue (st : ParserState) (token : List Char) :
    (process_token st token).2.all (fun pd => !pd.dialogue_text.isEmpty) = true := by
  rcases process_token_cases st token with ⟨ho, _, _⟩ | ⟨pd, ho, _, hdlg, _, _⟩
  · rw [ho]; rfl
  · rw [ho]
    simp only [Option.all_some]
    simpa using hdlg

/-- C3 (counterexample): on the accumulated text `PANEL_1: dialogue_text:
"Hi"` the first pattern's match is only 2 characters and fails the
threshold, but the loop falls through and the fourth pattern's retained
match `"Hi"` (4 characters, at or below the threshold) is emitted as a
panel record. -/
theorem c3_counterexample :
    (process_token parserReset demoShortPanelText).2.map
        (fun pd => pd.dialogue_text.length) = some 4 ∧
    4 ≤ 10 := by decide

/-! ### Lemmas about the robust extractor's dict updates -/

/-- Appending a fresh binding does not change an existing lookup. -/
theorem lookup_append_single (d : List (Nat × List Char)) (n k : Nat)
    (t v : List Char) (hk : d.lookup k = some v) :
    (d ++ [(n, t)]).lookup k = some v := by
  induction d with
  | nil => simp at hk
  | cons p ps ih =>
    rcases p with ⟨pk, pv⟩
    simp only [List.cons_append, List.lookup] at hk ⊢
    cases hkk : (k == pk) with
    | true => rw [hkk] at hk; simpa [hkk] using hk
    | false => rw [hkk] at hk; simpa [hkk] using ih hk

/-- Inserting a key that is absent preserves every existing binding. -/
theorem dictInsert_preserve (d : List (Nat × List Char)) (n k : Nat)
    (t v : List Char) (hk : d.lookup k = some v) (hn : dictMem d n = false) :
    (dictInsert d n t).lookup k = some v := by
  unfold dictInsert
  rw [if_neg (by unfold dictMem at hn; simp [hn])]
  exact lookup_append_single d n k t v hk

/-- One guarded-insert iteration preserves every existing binding. -/
theorem strategyGuardedInsert_preserve (d : List (Nat × List Char))
    (m : Nat × List Char) (k : Nat) (v : List Char) (hk : d.lookup k = some v) :
    (strategyGuardedInsert d m).lookup k = some v := by
  unfold strategyGuardedInsert
  split
  next hg =>
    refine dictInsert_preserve d m.1 k _ v hk ?_
    rcases Bool.and_eq_true .. |>.mp (Bool.and_eq_true .. |>.mp hg).1 with ⟨h1, _⟩
    simpa using h1
  next => exact hk

/-- The guarded consumer loop of strategies 2 and 3 preserves every
existing binding. -/
theorem strategyGuardedStep_preserve (ms : List (Nat × List Char)) :
    ∀ (d : List (Nat × List Char)) (k : Nat) (v : List Char),
      d.lookup k = some v → (strategyGuardedStep ms d).lookup k = some v := by
  induction ms with
  | nil => intro d k v hk; exact hk
  | cons m rest ih =>
    intro d k v hk
    simp only [strategyGuardedStep, List.foldl_cons]
    exact ih (strategyGuardedInsert d m) k v (strategyGuardedInsert_preserve d m k v hk)

/-- One strategy-4 iteration preserves every existing binding. -/
theorem strategy4Fold_preserve (st : List (Nat × List Char) × Nat)
    (m : List Char × List Char) (k : Nat) (v : List Char)
    (hk : st.1.lookup k = some v) :
    ((strategy4Fold st m).1).lookup k = some v := by
  unfold strategy4Fold
  split
  next hg =>
    split
    next =>
      refine dictInsert_preserve st.1 st.2 k _ v hk ?_
      rcases Bool.and_eq_true .. |>.mp hg with ⟨_, h2⟩
      simpa using h2
    next => exact hk
  next => exact hk

/-- Strategy 4's consumer loop preserves every existing binding. -/
theorem strategy4Step_preserve (ms : List (List Char × List Char)) :
    ∀ (st : List (Nat × List Char) × Nat) (k : Nat) (v : List Char),
      st.1.lookup k = some v → ((ms.foldl strategy4Fold st).1).lookup k = some v := by
  induction ms with
  | nil => intro st k v hk; exact hk
  | cons m rest ih =>
    intro st k v hk
    simp only [List.foldl_cons]
    exact ih (strategy4Fold st m) k v (strategy4Fold_preserve st m k v hk)

/-! ### C9 -/

/-- The robust extractor is definitionally the strategy-4 block applied to
the dictionary left by the strategy-3 block. -/
theorem extract_all_eq_stages (text : List Char) :
    extract_all_panels_robust text =
      if (robustStage3 text).length < 6 then
        strategy4Step (findAll matchS4At text) (robustStage3 text)
      else robustStage3 text := rfl

/-- The strategy-2 block preserves every binding left by strategy 1. -/
theorem robustStage2_preserve (text : List Char) (k : Nat) (v : List Char)
    (h : (robustStage1 text).lookup k = some v) :
    (robustStage2 text).lookup k = some v := by
  unfold robustStage2
  split
  · exact strategyGuardedStep_preserve _ _ k v h
  · exact h

/-- The strategy-3 block preserves every binding present after the
strategy-2 block. -/
theorem robustStage3_preserve (text : List Char) (k : Nat) (v : List Char)
    (h : (robustStage2 text).lookup k = some v) :
    (robustStage3 text).lookup k = some v := by
  unfold robustStage3
  split
  · exact strategyGuardedStep_preserve _ _ k v h
  · exact h

/-- The strategy-4 block preserves every binding present after the
strategy-3 block. -/
theorem extract_all_preserves_stage3 (text : List Char) (k : Nat) (v : List Char)
    (h : (robustStage3 text).lookup k = some v) :
    (extract_all_panels_robust text).lookup k = some v := by
  rw [extract_all_eq_stages]
  split
  · exact strategy4Step_preserve _ _ k v h
  · exact h

/-- C9: `extract_all_panels_robust` is a pure function of its text (two
calls on identical text agree definitionally), and a panel binding present
after any earlier strategy — after strategy 1, after the strategy-2 block,
or after the strategy-3 block — is never overwritten by any of the later,
more permissive strategies: it survives verbatim to the final result. -/
theorem c9_extract_pure_and_no_overwrite :
    (∀ text : List Char, extract_all_panels_robust text = extract_all_panels_robust text) ∧
    (∀ (text : List Char) (k : Nat) (v : List Char),
      ((robustStage1 text).lookup k = some v →
        (extract_all_panels_robust text).lookup k = some v) ∧
      ((robustStage2 text).lookup k = some v →
        (extract_all_panels_robust text).lookup k = some v) ∧
      ((robustStage3 text).lookup k = some v →
        (extract_all_panels_robust text).lookup k = some v)) := by
  refine ⟨fun _ => rfl, ?_⟩
  intro text k v
  refine ⟨?_, ?_, ?_⟩
  · intro h
    exact extract_all_preserves_stage3 text k v
      (robustStage3_preserve text k v (robustStage2_preserve text k v h))
  · intro h
    exact extract_all_preserves_stage3 text k v (robustStage3_preserve text k v h)
  · intro h
    exact extract_all_preserves_stage3 text k v h

/-- C9 (witness): a strategy-1 binding (panel 1 on a quoted block) and a
strategy-2 binding (panel 2 on an unquoted block, where strategy 1 finds
nothing) both survive to the final result. -/
theorem c9_witness :
    (robustStage1 s1DemoText).lookup 1 = some (("a dozen chars!").data) ∧
    (extract_all_panels_robust s1DemoText).lookup 1 = some (("a dozen chars!").data) ∧
    (robustStage2 s2DemoText).lookup 2 = some (("an unquoted long line").data) ∧
    (extract_all_panels_robust s2DemoText).lookup 2 = some (("an unquoted long line").data) :=
  ⟨by decide,
   (c9_extract_pure_and_no_overwrite.2 s1DemoText 1 (("a dozen chars!").data)).1 (by decide),
   by decide,
   (c9_extract_pure_and_no_overwrite.2 s2DemoText 2 (("an unquoted long line").data)).2.1 (by decide)⟩

/-! ### C6 -/

/-- C6 (amended): `validate_and_enhance_dialogue` always returns a map with
exactly the keys 1..6; on an empty input map each returned narration is the
template fallback, which contains the user's name verbatim in every panel,
the goal verbatim in panels 1, 2, 4, 6, and the mood (not the goal) in
panels 3 and 5. -/
theorem c6_enhance_keys_and_fallbacks :
    (∀ (panels : List (Nat × List Char)) (inputs : EnhanceInputs),
      (validate_and_enhance_dialogue panels inputs).map Prod.fst = [1, 2, 3, 4, 5, 6]) ∧
    (∀ (inputs : EnhanceInputs) (k : Nat), 1 ≤ k → k ≤ 6 →
      (validate_and_enhance_dialogue [] inputs).lookup k =
          some (fallbackDialogue inputs k) ∧
      inputs.nickname <:+: fallbackDialogue inputs k ∧
      ((k = 1 ∨ k = 2 ∨ k = 4 ∨ k = 6) → inputs.dream <:+: fallbackDialogue inputs k) ∧
      ((k = 3 ∨ k = 5) → inputs.mood <:+: fallbackDialogue inputs k)) := by
  constructor
  · intro panels inputs
    rfl
  · intro inputs k hk1 hk6
    interval_cases k
    · refine ⟨rfl, ?_, fun _ => ?_, fun h => by omega⟩
      · exact ⟨("Meet ").data,
          (". They\x27re feeling ").data ++ inputs.mood ++
            (" today, but deep inside burns a desire to achieve ").data ++
            inputs.dream ++
            (". Every great journey begins with a single step forward.").data,
          by simp [fallbackDialogue, List.append_assoc]⟩
      · exact ⟨("Meet ").data ++ inputs.nickname ++ (". They\x27re feeling ").data ++
            inputs.mood ++ (" today, but deep inside burns a desire to achieve ").data,
          (". Every great journey begins with a single step forward.").data,
          by simp [fallbackDialogue, List.append_assoc]⟩
    · refine ⟨rfl, ?_, fun _ => ?_, fun h => by omega⟩
      · exact ⟨[],
          (" faces the challenge ahead. The path to ").data ++ inputs.dream ++
            (" isn\x27t easy, but they\x27ve come too far to give up now. Sometimes the hardest battles are the ones we fight within ourselves.").data,
          by simp [fallbackDialogue, List.append_assoc]⟩
      · exact ⟨inputs.nickname ++ (" faces the challenge ahead. The path to ").data,
          (" isn\x27t easy, but they\x27ve come too far to give up now. Sometimes the hardest battles are the ones we fight within ourselves.").data,
          by simp [fallbackDialogue, List.append_assoc]⟩
    · refine ⟨rfl, ?_, fun h => by omega, fun _ => ?_⟩
      · exact ⟨("Taking a moment to breathe, ").data,
          (" reflects on how far they\x27ve already come. Even when feeling ").data ++
            inputs.mood ++
            (", there\x27s strength in acknowledging both struggles and progress.").data,
          by simp [fallbackDialogue, List.append_assoc]⟩
      · exact ⟨("Taking a moment to breathe, ").data ++ inputs.nickname ++
            (" reflects on how far they\x27ve already come. Even when feeling ").data,
          (", there\x27s strength in acknowledging both struggles and progress.").data,
          by simp [fallbackDialogue, List.append_assoc]⟩
    · refine ⟨rfl, ?_, fun _ => ?_, fun h => by omega⟩
      · exact ⟨("In this moment of clarity, ").data,
          (" discovers something important. Their ").data ++ inputs.dream ++
            (" isn\x27t just about the destination - it\x27s about becoming the person they\x27re meant to be along the way.").data,
          by simp [fallbackDialogue, List.append_assoc]⟩
      · exact ⟨("In this moment of clarity, ").data ++ inputs.nickname ++
            (" discovers something important. Their ").data,
          (" isn\x27t just about the destination - it\x27s about becoming the person they\x27re meant to be along the way.").data,
          by simp [fallbackDialogue, List.append_assoc]⟩
    · refine ⟨rfl, ?_, fun h => by omega, fun _ => ?_⟩
      · exact ⟨("With newfound determination, ").data,
          (" takes action. They realize that being ").data ++ inputs.mood ++
            (" doesn\x27t define them - it\x27s just one part of their story, and they have the power to write the next chapter.").data,
          by simp [fallbackDialogue, List.append_assoc]⟩
      · exact ⟨("With newfound determination, ").data ++ inputs.nickname ++
            (" takes action. They realize that being ").data,
          (" doesn\x27t define them - it\x27s just one part of their story, and they have the power to write the next chapter.").data,
          by simp [fallbackDialogue, List.append_assoc]⟩
    · refine ⟨rfl, ?_, fun _ => ?_, fun h => by omega⟩
      · exact ⟨("Looking back on the journey, ").data,
          (" sees how much they\x27ve grown. The road to ").data ++ inputs.dream ++
            (" continues, but now they know they have the strength to face whatever comes next. Hope lights the way forward.").data,
          by simp [fallbackDialogue, List.append_assoc]⟩
      · exact ⟨("Looking back on the journey, ").data ++ inputs.nickname ++
            (" sees how much they\x27ve grown. The road to ").data,
          (" continues, but now they know they have the strength to face whatever comes next. Hope lights the way forward.").data,
          by simp [fallbackDialogue, List.append_assoc]⟩

/-- C6 (counterexample): with the §8 example profile the panel-3 narration
returned for an empty input map does not contain the goal
`overcome shyness`. -/
theorem c6_counterexample :
    (validate_and_enhance_dialogue [] mayaInputs).lookup 3 =
        some (fallbackDialogue mayaInputs 3) ∧
    ¬ (mayaInputs.dream <:+: fallbackDialogue mayaInputs 3) :=
  ⟨rfl, by decide⟩

/-- C6 (witness): panel 1's fallback for the example profile contains both
the name and the goal. -/
theorem c6_witness :
    mayaInputs.nickname <:+: fallbackDialogue mayaInputs 1 ∧
    mayaInputs.dream <:+: fallbackDialogue mayaInputs 1 :=
  ⟨(c6_enhance_keys_and_fallbacks.2 mayaInputs 1 (by omega) (by omega)).2.1,
   (c6_enhance_keys_and_fallbacks.2 mayaInputs 1 (by omega) (by omega)).2.2.1 (Or.inl rfl)⟩

/-! ### Lemmas about the retry loop -/

/-- A successful attempt returns immediately. -/
theorem backoffGo_ok {α : Type} (op : Nat → Except (List Char) α) (mr : Nat)
    (i m b : ℚ) (j : Bool) (rm : List Char → Bool) (rand : Nat → ℚ)
    (f a : Nat) (s : List ℚ) (v : α) (hop : op a = Except.ok v) :
    backoffGo op mr i m b j rm rand (f + 1) a s = (Except.ok v, s) := by
  simp [backoffGo, hop]

/-- A retryable failure below the retry cap sleeps once and retries. -/
theorem backoffGo_step {α : Type} (op : Nat → Except (List Char) α) (mr : Nat)
    (i m b : ℚ) (j : Bool) (rm : List Char → Bool) (rand : Nat → ℚ)
    (f a : Nat) (s : List ℚ) (e : List Char)
    (hop : op a = Except.error e) (hrm : rm e = true) (ha : a < mr) :
    backoffGo op mr i m b j rm rand (f + 1) a s =
      backoffGo op mr i m b j rm rand f (a + 1)
        (s ++ [backoffDelay i m b (isQuotaExceededErr e) j (rand a) a]) := by
  simp [backoffGo, hop, hrm, Nat.not_le.mpr ha]

/-- A failure that matches neither the caller-supplied retryable types nor
the rate-limit keywords propagates immediately. -/
theorem backoffGo_fatal {α : Type} (op : Nat → Except (List Char) α) (mr : Nat)
    (i m b : ℚ) (j : Bool) (rm : List Char → Bool) (rand : Nat → ℚ)
    (f a : Nat) (s : List ℚ) (e : List Char)
    (hop : op a = Except.error e) (hrm : rm e = false)
    (hrl : isRateLimitErr e = false) :
    backoffGo op mr i m b j rm rand (f + 1) a s = (Except.error e, s) := by
  simp [backoffGo, hop, hrm, hrl]

/-- A failure at or beyond the retry cap re-raises. -/
theorem backoffGo_exhaust {α : Type} (op : Nat → Except (List Char) α) (mr : Nat)
    (i m b : ℚ) (j : Bool) (rm : List Char → Bool) (rand : Nat → ℚ)
    (f a : Nat) (s : List ℚ) (e : List Char)
    (hop : op a = Except.error e) (ha : mr ≤ a) :
    backoffGo op mr i m b j rm rand (f + 1) a s = (Except.error e, s) := by
  simp [backoffGo, hop, ha]

/-- Bounds on one quota-doubled jittered delay. -/
theorem backoffDelay_quota_bounds (i m b u : ℚ) (attempt : Nat)
    (hi : 0 < i) (him : i ≤ m) (hb : 1 ≤ b) (hu0 : 0 ≤ u) (hu1 : u < 1) :
    i ≤ backoffDelay i m b true true u attempt ∧
      backoffDelay i m b true true u attempt < m * 2 := by
  unfold backoffDelay
  simp only [if_pos rfl, if_true]
  have hpow : (1 : ℚ) ≤ b ^ attempt := one_le_pow₀ hb
  have hfac0 : (1 : ℚ) / 2 ≤ 1 / 2 + u * (1 / 2) := by nlinarith
  have hfac1 : 1 / 2 + u * (1 / 2) < 1 := by nlinarith
  have hlow : i * 2 ≤ min (i * b ^ attempt * 2) (m * 2) := by
    refine le_min (by nlinarith) (by nlinarith)
  have hhigh : min (i * b ^ attempt * 2) (m * 2) ≤ m * 2 := min_le_right _ _
  have hpos : 0 < min (i * b ^ attempt * 2) (m * 2) := by
    refine lt_min (by nlinarith) (by nlinarith)
  constructor
  · nlinarith [mul_le_mul_of_nonneg_right hlow (le_of_lt (by nlinarith : (0:ℚ) < 1 / 2 + u * (1 / 2)))]
  · nlinarith

/-! ### C5 -/

/-- C5 (amended): when the wrapped operation fails twice with
quota-exceeded-flagged errors and then succeeds (under the default
retryable-exception behaviour, with at least 2 retries allowed, a positive
initial delay no greater than the cap and an exponential base of at least
1), exactly 2 sleeps occur, each at least `initial_delay` (the quota-doubled
base times the jitter floor 1/2) and strictly below `max_delay * 2`, and
the final result is the operation's success value. -/
theorem c5_backoff_quota_two_failures {α : Type} (op : Nat → Except (List Char) α)
    (v : α) (e0 e1 : List Char) (mr : Nat) (i m b : ℚ) (u : Nat → ℚ)
    (h0 : op 0 = Except.error e0) (h1 : op 1 = Except.error e1)
    (h2 : op 2 = Except.ok v)
    (hq0 : isQuotaExceededErr e0 = true) (hq1 : isQuotaExceededErr e1 = true)
    (hmr : 2 ≤ mr) (hi : 0 < i) (him : i ≤ m) (hb : 1 ≤ b)
    (hu0 : ∀ k, 0 ≤ u k) (hu1 : ∀ k, u k < 1) :
    (exponential_backoff_async op mr i m b true retryAll u).1 = Except.ok v ∧
    (exponential_backoff_async op mr i m b true retryAll u).2.length = 2 ∧
    ∀ d ∈ (exponential_backoff_async op mr i m b true retryAll u).2,
      i ≤ d ∧ d < m * 2 := by
  obtain ⟨k, rfl⟩ : ∃ k, mr = k + 2 := ⟨mr - 2, by omega⟩
  have hrun : exponential_backoff_async op (k + 2) i m b true retryAll u =
      (Except.ok v,
        [backoffDelay i m b true true (u 0) 0, backoffDelay i m b true true (u 1) 1]) := by
    unfold exponential_backoff_async
    rw [show k + 2 + 1 = (k + 2) + 1 by omega,
      backoffGo_step op (k + 2) i m b true retryAll u (k + 2) 0 [] e0 h0 rfl (by omega)]
    rw [show k + 2 = (k + 1) + 1 by omega,
      backoffGo_step op (k + 2) i m b true retryAll u (k + 1) 1 _ e1 h1 rfl (by omega)]
    rw [show k + 1 = k + 1 by omega,
      backoffGo_ok op (k + 2) i m b true retryAll u k 2 _ v h2]
    rw [hq0, hq1]
    rfl
  rw [hrun]
  refine ⟨rfl, rfl, ?_⟩
  intro d hd
  rcases List.mem_cons.mp hd with rfl | hd
  · exact backoffDelay_quota_bounds i m b (u 0) 0 hi him hb (hu0 0) (hu1 0)
  rcases List.mem_cons.mp hd with rfl | hd
  · exact backoffDelay_quota_bounds i m b (u 1) 1 hi him hb (hu0 1) (hu1 1)
  · simp at hd

/-- C5 (witness): the amended statement holds at the concrete instance with
initial delay 1, cap 60, base 2 and zero jitter draws. -/
theorem c5_witness :
    (exponential_backoff_async demoQuotaOp 5 1 60 2 true retryAll (fun _ => 0)).1 =
        Except.ok 42 ∧
    (exponential_backoff_async demoQuotaOp 5 1 60 2 true retryAll (fun _ => 0)).2.length = 2 := by
  have h := c5_backoff_quota_two_failures demoQuotaOp 42
    (("quota exceeded").data) (("quota exceeded").data) 5 1 60 2 (fun _ => 0)
    rfl rfl rfl (by decide) (by decide) (by omega) (by norm_num) (by norm_num)
    (by norm_num) (fun _ => le_refl 0) (fun _ => by norm_num)
  exact ⟨h.1, h.2.1⟩

/-- C5 (counterexample): with the default jitter enabled the claim's lower
bound `initial_delay * 2` fails: at initial delay 1, cap 60, base 2 and a
zero jitter draw the first sleep is exactly 1 second, below
`initial_delay * 2 = 2`. -/
theorem c5_counterexample :
    (exponential_backoff_async demoQuotaOp 5 1 60 2 true retryAll (fun _ => 0)).2 =
        [1, 2] ∧
    ¬ ((1 : ℚ) * 2 ≤ 1) := by
  constructor
  · have hq : isQuotaExceededErr (("quota exceeded").data) = true := by decide
    have hstep0 := backoffGo_step demoQuotaOp 5 1 60 2 true retryAll (fun _ => 0)
      5 0 [] (("quota exceeded").data) rfl rfl (by omega)
    have hstep1 := backoffGo_step demoQuotaOp 5 1 60 2 true retryAll (fun _ => 0)
      4 1 ([] ++ [backoffDelay 1 60 2 (isQuotaExceededErr (("quota exceeded").data)) true 0 0])
      (("quota exceeded").data) rfl rfl (by omega)
    have hok := backoffGo_ok demoQuotaOp 5 1 60 2 true retryAll (fun _ => 0)
      3 2 (([] ++ [backoffDelay 1 60 2 (isQuotaExceededErr (("quota exceeded").data)) true 0 0]) ++
        [backoffDelay 1 60 2 (isQuotaExceededErr (("quota exceeded").data)) true 0 1]) 42 rfl
    unfold exponential_backoff_async
    rw [show (5 : Nat) + 1 = 5 + 1 by omega, hstep0, hstep1, hok]
    rw [hq]
    have hd0 : backoffDelay 1 60 2 true true 0 0 = 1 := by
      simp [backoffDelay]
    have hd1 : backoffDelay 1 60 2 true true 0 1 = 2 := by
      simp [backoffDelay]
      rw [min_eq_left (by norm_num)]
      norm_num
    rw [hd0, hd1]
    rfl
  · norm_num

/-- Exhaustion of all attempts on retryable errors: the loop re-raises the
error of attempt `max_retries`. -/
theorem backoffGo_exhaust_all {α : Type} (op : Nat → Except (List Char) α)
    (mr : Nat) (i m b : ℚ) (j : Bool) (rm : List Char → Bool) (rand : Nat → ℚ)
    (errs : Nat → List Char)
    (hop : ∀ a, op a = Except.error (errs a)) (hrm : ∀ a, rm (errs a) = true) :
    ∀ (k a : Nat) (s : List ℚ), a + k = mr →
      (backoffGo op mr i m b j rm rand (k + 1) a s).1 = Except.error (errs mr) := by
  intro k
  induction k with
  | zero =>
    intro a s ha
    rw [backoffGo_exhaust op mr i m b j rm rand 0 a s (errs a) (hop a) (by omega)]
    simp only
    rw [show a = mr by omega]
  | succ k ih =>
    intro a s ha
    rw [backoffGo_step op mr i m b j rm rand (k + 1) a s (errs a) (hop a) (hrm a) (by omega)]
    exact ih (a + 1) _ (by omega)

/-! ### C8 -/

/-- C8: a fatal exception (no rate-limit/quota keyword in its lower-cased
text and not matched by the caller-supplied retryable exception types)
propagates to the caller with no sleep and with no further attempt taken
(the result is independent of every later attempt's outcome); and when
every attempt fails with a retryable error, the error raised at attempt
`max_retries` — the last one — is re-raised to the caller. -/
theorem c8_backoff_fatal_and_exhaustion {α : Type} :
    (∀ (op : Nat → Except (List Char) α) (mr : Nat) (i m b : ℚ) (j : Bool)
        (rm : List Char → Bool) (rand : Nat → ℚ) (e : List Char),
      op 0 = Except.error e → rm e = false → isRateLimitErr e = false →
      exponential_backoff_async op mr i m b j rm rand = (Except.error e, [])) ∧
    (∀ (op : Nat → Except (List Char) α) (mr : Nat) (i m b : ℚ) (j : Bool)
        (rm : List Char → Bool) (rand : Nat → ℚ) (errs : Nat → List Char),
      (∀ a, op a = Except.error (errs a)) → (∀ a, rm (errs a) = true) →
      (exponential_backoff_async op mr i m b j rm rand).1 =
        Except.error (errs mr)) := by
  constructor
  · intro op mr i m b j rm rand e hop hrm hrl
    unfold exponential_backoff_async
    exact backoffGo_fatal op mr i m b j rm rand mr 0 [] e hop hrm hrl
  · intro op mr i m b j rm rand errs hop hrm
    unfold exponential_backoff_async
    exact backoffGo_exhaust_all op mr i m b j rm rand errs hop hrm mr 0 [] (by omega)

/-- C8 (witness): a non-keyword error with no caller-supplied match
propagates at once, and three retryable rate-limit failures exhaust
`max_retries = 2` and re-raise the last error. -/
theorem c8_witness :
    exponential_backoff_async
        (fun _ => (Except.error (("boom").data) : Except (List Char) Nat)) 3 1 60 2 true
        (fun _ => false) (fun _ => 0) = (Except.error (("boom").data), []) ∧
    (exponential_backoff_async
        (fun _ => (Except.error (("rate limit").data) : Except (List Char) Nat)) 2 1 60 2 true
        (fun _ => true) (fun _ => 0)).1 = Except.error (("rate limit").data) :=
  ⟨(c8_backoff_fatal_and_exhaustion (α := Nat)).1 _ 3 1 60 2 true _ _ _ rfl rfl (by decide),
   (c8_backoff_fatal_and_exhaustion (α := Nat)).2 _ 2 1 60 2 true _ _ (fun _ => ("rate limit").data)
     (fun _ => rfl) (fun _ => rfl)⟩

/-! ### C4 -/

/-- C4: when the image branch's primary generation fails with a
quota/429-flagged error and the simplified-prompt fallback generation also
raises, `process_panel` still returns the panel with a non-empty image
reference — the uploaded locally synthesized placeholder — and the
narration-audio reference is exactly the TTS branch's own outcome,
unaffected by the image failure. -/
theorem c4_placeholder_image_and_tts_isolation (pd : PanelData)
    (storyId e fe : List Char) (tts : Except (List Char) (List Char))
    (hq : containsSub (toLowerList e) (("quota exceeded").data) = true ∨
      containsSub (toLowerList e) (("429").data) = true) :
    (process_panel pd storyId (Except.error e) (Except.error fe) tts false).image_url =
        upload_image (create_placeholder_image pd.panel_number) storyId pd.panel_number ∧
    (process_panel pd storyId (Except.error e) (Except.error fe) tts false).image_url ≠ [] ∧
    (process_panel pd storyId (Except.error e) (Except.error fe) tts false).tts_url =
        urlOf tts ∧
    (process_panel pd storyId (Except.error e) (Except.error fe) tts false).music_url =
        staticMusicUrl := by
  have hcond : (containsSub (toLowerList e) (("quota exceeded").data) ||
      containsSub (toLowerList e) (("429").data)) = true := by
    rcases hq with h | h <;> simp [h]
  have himg : generate_panel_image (Except.error e) (Except.error fe) storyId pd.panel_number =
      Except.ok (upload_image (create_placeholder_image pd.panel_number) storyId pd.panel_number) := by
    simp [generate_panel_image, hcond, generate_fallback_image]
  refine ⟨?_, ?_, rfl, rfl⟩
  · show urlOf (generate_panel_image (Except.error e) (Except.error fe) storyId pd.panel_number) =
      upload_image (create_placeholder_image pd.panel_number) storyId pd.panel_number
    rw [himg]
    rfl
  · show urlOf (generate_panel_image (Except.error e) (Except.error fe) storyId pd.panel_number) ≠ []
    rw [himg]
    simp [upload_image, urlOf]

/-- C4 (witness): the concrete quota-flagged failure with a failing
simplified-prompt fallback still produces a non-empty image reference and
leaves the TTS URL untouched. -/
theorem c4_witness :
    (process_panel demoPanelData (("story1").data)
        (Except.error (("429 RESOURCE_EXHAUSTED: Quota exceeded for aiplatform").data))
        (Except.error (("quota exceeded again").data))
        (Except.ok (("tts-url").data)) false).image_url ≠ [] ∧
    (process_panel demoPanelData (("story1").data)
        (Except.error (("429 RESOURCE_EXHAUSTED: Quota exceeded for aiplatform").data))
        (Except.error (("quota exceeded again").data))
        (Except.ok (("tts-url").data)) false).tts_url = ("tts-url").data := by
  have h := c4_placeholder_image_and_tts_isolation demoPanelData (("story1").data)
    (("429 RESOURCE_EXHAUSTED: Quota exceeded for aiplatform").data)
    (("quota exceeded again").data) (Except.ok (("tts-url").data))
    (Or.inl (by decide))
  exact ⟨h.2.1, h.2.2.1⟩

/-! ### C10 -/

/-- C10: on the non-exceptional path `process_panel` always sets the music
reference to the static background-music path, while the panel-level
exception path overwrites all three asset references — image, TTS and also
music — with empty strings, so the static music reference does not survive
a panel-level failure. -/
theorem c10_music_static_until_panel_error (pd : PanelData) (storyId : List Char)
    (primary : Except (List Char) (List Char)) (fb : Except (List Char) (List Nat))
    (tts : Except (List Char) (List Char)) :
    (process_panel pd storyId primary fb tts false).music_url = staticMusicUrl ∧
    (process_panel pd storyId primary fb tts true).image_url = [] ∧
    (process_panel pd storyId primary fb tts true).music_url = [] ∧
    (process_panel pd storyId primary fb tts true).tts_url = [] :=
  ⟨rfl, rfl, rfl, rfl⟩

/-! ### C7 -/

/-- C7 (amended): with the five gather outcomes for panels 2..6 supplied,
the sequential orchestrator's manifest has exactly 6 entries, headed by the
fully processed panel 1; a panel whose pipeline raised is replaced by the
explicit fallback record — narration present, image and narration-audio
references empty, but the music reference set to the static
background-music path, not empty — while a successful panel's record is
passed through unchanged; and the schedule trace completes and reports
panel 1 before dispatching panels 2..6, whose staggered start delays are
0, 2, 4, 6, 8 seconds (a fixed 2-second increment per panel index). -/
theorem c7_sequential_manifest_and_schedule (panel1 : SeqPanel)
    (results : List (Except (List Char) SeqPanel)) (hlen : results.length = 5) :
    (generate_sequential_story panel1 results).1.length = 6 ∧
    (generate_sequential_story panel1 results).1.get? 0 = some panel1 ∧
    (∀ (idx : Nat) (er : List Char), results.get? idx = some (Except.error er) →
      (generate_sequential_story panel1 results).1.get? (idx + 1) =
        some (create_fallback_panel (idx + 2))) ∧
    (∀ (idx : Nat) (p : SeqPanel), results.get? idx = some (Except.ok p) →
      (generate_sequential_story panel1 results).1.get? (idx + 1) = some p) ∧
    (∀ n : Nat, (create_fallback_panel n).image_url = [] ∧
      (create_fallback_panel n).tts_url = [] ∧
      (create_fallback_panel n).music_url = staticMusicUrl ∧
      (create_fallback_panel n).dialogue_text ≠ []) ∧
    (generate_sequential_story panel1 results).2 =
      [SeqEvent.panel1Start, SeqEvent.panel1Done, SeqEvent.slideshowStart,
        SeqEvent.dispatch 2 0, SeqEvent.dispatch 3 2, SeqEvent.dispatch 4 4,
        SeqEvent.dispatch 5 6, SeqEvent.dispatch 6 8] := by
  have h5 : ∃ a b c d e, results = [a, b, c, d, e] := by
    rcases results with _ | ⟨a, _ | ⟨b, _ | ⟨c, _ | ⟨d, _ | ⟨e, _ | ⟨f, t⟩⟩⟩⟩⟩⟩
    · simp at hlen
    · simp at hlen
    · simp at hlen
    · simp at hlen
    · simp at hlen
    · exact ⟨a, b, c, d, e, rfl⟩
    · simp at hlen
  obtain ⟨a, b, c, d, e, rfl⟩ := h5
  refine ⟨rfl, rfl, ?_, ?_, ?_, rfl⟩
  · intro idx er h
    rcases idx with _ | _ | _ | _ | _ | idx
    · simp only [List.get?_cons_zero, Option.some.injEq] at h; subst h; rfl
    · simp only [List.get?_cons_succ, List.get?_cons_zero, Option.some.injEq] at h
      subst h; rfl
    · simp only [List.get?_cons_succ, List.get?_cons_zero, Option.some.injEq] at h
      subst h; rfl
    · simp only [List.get?_cons_succ, List.get?_cons_zero, Option.some.injEq] at h
      subst h; rfl
    · simp only [List.get?_cons_succ, List.get?_cons_zero, Option.some.injEq] at h
      subst h; rfl
    · simp at h
  · intro idx p h
    rcases idx with _ | _ | _ | _ | _ | idx
    · simp only [List.get?_cons_zero, Option.some.injEq] at h; subst h; rfl
    · simp only [List.get?_cons_succ, List.get?_cons_zero, Option.some.injEq] at h
      subst h; rfl
    · simp only [List.get?_cons_succ, List.get?_cons_zero, Option.some.injEq] at h
      subst h; rfl
    · simp only [List.get?_cons_succ, List.get?_cons_zero, Option.some.injEq] at h
      subst h; rfl
    · simp only [List.get?_cons_succ, List.get?_cons_zero, Option.some.injEq] at h
      subst h; rfl
    · simp at h
  · intro n
    refine ⟨rfl, rfl, rfl, ?_⟩
    unfold create_fallback_panel get_fallback_dialogue
    split <;>
      first
        | decide
        | exact (show (("The journey continues with hope and determination.").data : List Char) ≠ []
            by decide)

/-- C7 (counterexample): when panel 3's pipeline raises, its manifest entry
is the fallback record, whose music reference is the non-empty static
background-music path — the claim's "empty asset references" does not hold
for the music slot. -/
theorem c7_counterexample :
    (generate_sequential_story (demoSeqPanel 1) demoSeqResults).1.get? 2 =
        some (create_fallback_panel 3) ∧
    (create_fallback_panel 3).music_url ≠ [] := by
  constructor
  · rfl
  · decide

/-- C7 (witness): the amended statement applied to the concrete gather
outcomes in which panel 3 failed. -/
theorem c7_witness :
    (generate_sequential_story (demoSeqPanel 1) demoSeqResults).1.length = 6 ∧
    (generate_sequential_story (demoSeqPanel 1) demoSeqResults).1.get? 4 =
        some (demoSeqPanel 5) := by
  have h := c7_sequential_manifest_and_schedule (demoSeqPanel 1) demoSeqResults rfl
  exact ⟨h.1, h.2.2.2.1 3 (demoSeqPanel 5) rfl⟩
